import Mathlib

/-!
# Verification of the image-compression service (`src/server.py`)

A shallow embedding of the service in Lean 4.  Pure Python expressions become
Lean functions; the imaging library (PIL) and the document store (MongoDB),
which are external collaborators, are modelled by concrete Lean functions or
abstract parameters, each documented where it is introduced.  Machine floats
are modelled by rationals, byte strings by `List Nat`.
-/

namespace ImageService

/-! ## PIL image model

`Image.open` produces an image carrying a color `mode`, a size, pixel data and
an optional declared `format`.  The modes relevant to the code under
verification are the transparency / palette modes `RGBA`, `LA`, `P` named on
line 74 of `server.py`, the pass-through mode `RGB`, and representative
alpha-free non-RGB modes `L` (grayscale) and `CMYK` — the modes PIL decoders
produce.  A pixel is its list of channel values (0–255); a palette image also
carries an RGBA palette. -/

inductive Mode where
  | RGB
  | RGBA
  | LA
  | P
  | L
  | CMYK
deriving DecidableEq

/-- Number of channels of each mode (`P` pixels are palette indices). -/
def Mode.channels : Mode → Nat
  | .RGB => 3
  | .RGBA => 4
  | .LA => 2
  | .P => 1
  | .L => 1
  | .CMYK => 4

structure PILImage where
  mode : Mode
  width : Nat
  height : Nat
  /-- Row-major pixel data; one inner list of channel values per pixel. -/
  pixels : List (List Nat)
  /-- RGBA palette entries, used only by mode `P`. -/
  palette : List (List Nat)
  /-- The declared format label (`image.format`), `none` when undetectable. -/
  format : Option String
deriving DecidableEq

/-- Well-formed image: pixel count matches the dimensions, every pixel has the
channel count of its mode, and channel values are bytes. -/
def WF (img : PILImage) : Prop :=
  img.pixels.length = img.width * img.height ∧
  ∀ px ∈ img.pixels, px.length = img.mode.channels ∧ ∀ c ∈ px, c ≤ 255

instance (img : PILImage) : Decidable (WF img) := by
  unfold WF; infer_instance

/-- Modelled from the spec: PIL palette lookup; missing entries read as opaque
black, present entries are RGBA quadruples. -/
def paletteLookup (pal : List (List Nat)) (i : Nat) : List Nat :=
  pal.getD i [0, 0, 0, 255]

/-- Modelled from the spec: the RGB value of one pixel, as PIL's `convert`
produces it — `RGBA` drops alpha, `LA`/`L` replicate the gray level, `P` reads
the palette, `CMYK` uses the library's inversion formula. -/
def pixelToRGB (m : Mode) (pal : List (List Nat)) (px : List Nat) : List Nat :=
  match m, px with
  | .RGB, px => px
  | .RGBA, px => px.take 3
  | .LA, l :: _ => [l, l, l]
  | .LA, [] => []
  | .L, l :: _ => [l, l, l]
  | .L, [] => []
  | .P, px => (paletteLookup pal (px.headD 0)).take 3
  | .CMYK, [c, m, y, k] =>
      [(255 - c) * (255 - k) / 255, (255 - m) * (255 - k) / 255, (255 - y) * (255 - k) / 255]
  | .CMYK, _ => []

/-- Modelled from the spec: `image.convert('RGB')` — per-pixel conversion to
full color, preserving dimensions and format. -/
def PILImage.convertRGB (img : PILImage) : PILImage :=
  { img with
    mode := Mode.RGB
    pixels := img.pixels.map (pixelToRGB img.mode img.palette)
    palette := [] }

/-- Modelled from the spec: `image.convert('RGBA')` on a palette image —
expand every index through the RGBA palette (identity on other modes, which
the code never exercises). -/
def PILImage.convertRGBA (img : PILImage) : PILImage :=
  if img.mode = Mode.P then
    { img with
      mode := Mode.RGBA
      pixels := img.pixels.map (fun px => paletteLookup img.palette (px.headD 0))
      palette := [] }
  else img

/-- Modelled from the spec: `image.split()[-1]` — the last band; for `RGBA`
and `LA` this is the alpha channel.  A pixel with no channels reads as opaque. -/
def alphaOf (px : List Nat) : Nat :=
  px.getLast?.getD 255

def alphaChannel (img : PILImage) : List Nat :=
  img.pixels.map alphaOf

/-- Modelled from the spec: `Image.new('RGB', size, (255, 255, 255))` — an
opaque white canvas. -/
def whiteBackground (w h : Nat) : PILImage :=
  { mode := Mode.RGB
    width := w
    height := h
    pixels := List.replicate (w * h) [255, 255, 255]
    palette := []
    format := none }

/-- Modelled from the spec: PIL's per-channel blend for `paste` with an `L`
mask — linear interpolation between background and source weighted by alpha. -/
def blendChannel (a bg s : Nat) : Nat :=
  (bg * (255 - a) + s * a + 127) / 255

/-- Blend corresponding pixels of background and source under a per-pixel
alpha mask. -/
def pastePixels : List (List Nat) → List (List Nat) → List Nat → List (List Nat)
  | bg :: bgs, s :: ss, a :: ms => List.zipWith (blendChannel a) bg s :: pastePixels bgs ss ms
  | _, _, _ => []

/-- Modelled from the spec: `background.paste(image, mask=...)` at the origin
on same-size images — the source is first converted to the background's (RGB)
mode; without a mask it overwrites the background, with a mask it is blended
channel-wise. -/
def pasteImage (bg : PILImage) (src : PILImage) (mask : Option (List Nat)) : PILImage :=
  let srcRGB := src.pixels.map (pixelToRGB src.mode src.palette)
  match mask with
  | none => { bg with pixels := srcRGB }
  | some m => { bg with pixels := pastePixels bg.pixels srcRGB m }

/-- The normalization block of `compress_image` (`server.py` lines 74–81),
embedded statement by statement:

```
if image.mode in ('RGBA', 'LA', 'P'):
    background = Image.new('RGB', image.size, (255, 255, 255))
    if image.mode == 'P':
        image = image.convert('RGBA')
    background.paste(image, mask=image.split()[-1] if image.mode in ('RGBA', 'LA') else None)
    image = background
elif image.mode != 'RGB':
    image = image.convert('RGB')
```
-/
def normalize (image : PILImage) : PILImage :=
  if image.mode = Mode.RGBA ∨ image.mode = Mode.LA ∨ image.mode = Mode.P then
    let background := whiteBackground image.width image.height
    let image2 := if image.mode = Mode.P then image.convertRGBA else image
    pasteImage background image2
      (if image2.mode = Mode.RGBA ∨ image2.mode = Mode.LA then some (alphaChannel image2)
       else none)
  else if image.mode ≠ Mode.RGB then image.convertRGB
  else image

/-! ## Ratio arithmetic

Python floats are modelled by rationals; `round(x, 2)` is rounding to two
decimal places with Python's ties-to-even rule. -/

/-- Round a rational to the nearest integer, ties to the even integer
(Python's `round` on a number exactly half-way between two integers). -/
def roundHalfEven (q : ℚ) : ℤ :=
  let f := ⌊q⌋
  let r := q - (f : ℚ)
  if r < 1 / 2 then f
  else if 1 / 2 < r then f + 1
  else if f % 2 = 0 then f else f + 1

/-- Python `round(x, 2)`. -/
def round2 (q : ℚ) : ℚ :=
  (roundHalfEven (q * 100) : ℚ) / 100

/-- `server.py` line 90:
`compression_ratio = round((1 - compressed_size / original_size) * 100, 2) if original_size > 0 else 0`. -/
def compression_ratio (original_size compressed_size : Nat) : ℚ :=
  if 0 < original_size then
    round2 ((1 - (compressed_size : ℚ) / (original_size : ℚ)) * 100)
  else 0

/-! ## Data model and persistence

`CompressionStats` (lines 43–52) is the pydantic record; the handler stores
`stats.model_dump()` with the timestamp replaced by its ISO-8601 string
(line 102), so the persisted document carries the timestamp as a string.
The Mongo collection is modelled as a list of documents in insertion order. -/

structure CompressionStats where
  id : String
  original_filename : String
  original_size : Nat
  compressed_size : Nat
  original_format : String
  compression_ratio : ℚ
  /-- Stored as an ISO-8601 string (`server.py` line 102). -/
  timestamp : String
deriving DecidableEq

/-- Modelled from the spec: `db.compression_stats.insert_one` appends one
document to the persisted collection. -/
def mongoInsert (store : List CompressionStats) (d : CompressionStats) :
    Except String (List CompressionStats) :=
  Except.ok (store ++ [d])

/-- Newest-first order on stored documents: `a` precedes `b` when `a`'s
timestamp is the later (or equal) ISO-8601 string. -/
def tsGE (a b : CompressionStats) : Prop :=
  b.timestamp ≤ a.timestamp

instance : DecidableRel tsGE := fun a b =>
  inferInstanceAs (Decidable (b.timestamp ≤ a.timestamp))

instance : IsTotal CompressionStats tsGE :=
  ⟨fun a b => (le_total b.timestamp a.timestamp).imp id id⟩

instance : IsTrans CompressionStats tsGE :=
  ⟨fun _ _ _ h1 h2 => le_trans h2 h1⟩

/-- `get_compression_stats` (lines 125–134):
`db.compression_stats.find({}, ...).sort("timestamp", -1).to_list(100)` —
sort the collection by the stored ISO-8601 timestamp string, descending, and
return at most the first 100 documents.  (The handler then parses each
timestamp string back to a datetime; field values are unchanged, so the model
keeps the string.) -/
def get_compression_stats (store : List CompressionStats) : List CompressionStats :=
  (List.insertionSort tsGE store).take 100

/-! ## The compress handler -/

/-- A multipart upload: FastAPI's `UploadFile` carries the raw bytes and an
optional client-supplied filename. -/
structure UploadFile where
  filename : Option String
  contents : List Nat
deriving DecidableEq

/-- The handler's HTTP result: either a 200 streaming response with the
encoded bytes, the `Content-Disposition` value and the four `X-` headers
(lines 109–119), or an `HTTPException` with a status code and a `detail`
message (line 123). -/
inductive Response where
  | success (body : List Nat) (contentDisposition : String)
      (xOriginalSize xCompressedSize : Nat) (xCompressionRatio : ℚ)
      (xOriginalFormat : String)
  | clientError (status : Nat) (detail : String)
deriving DecidableEq

/-- `image.format or "UNKNOWN"` (line 71): Python `or` takes the fallback on
`None` and on the empty (falsy) string. -/
def orUnknown : Option String → String
  | none => "UNKNOWN"
  | some s => if s = "" then "UNKNOWN" else s

/-- Python `pathlib.Path(...).stem` on the final path component: the name up
to its last dot, provided that dot is neither the first nor past-the-end
character of the name. -/
def stemChars (name : List Char) : List Char :=
  match name.reverse.findIdx? (fun c => c = '.') with
  | none => name
  | some k =>
      let i := name.length - 1 - k
      if 0 < i ∧ i < name.length - 1 then name.take i else name

/-- `Path(filename).stem` (line 107): last `/`-separated component, without
its final extension. -/
def stem (s : String) : String :=
  ⟨stemChars ((s.data.splitOn '/').getLastD s.data)⟩

/-- The `Content-Disposition` value of a successful response (line 113). -/
def attachmentFor (filename : String) : String :=
  "attachment; filename=\"" ++ stem filename ++ ".webp\""

/-- Modelled from the spec: the message of the pydantic `ValidationError`
raised when `CompressionStats(original_filename=None, ...)` is constructed
(line 94) — `original_filename` is a required `str` field with no default. -/
def validationErrorMsg : String :=
  "1 validation error for CompressionStats: original_filename must be a valid string"

/-- The stored document built on lines 93–102: the pydantic record with a
fresh id, the computed ratio, and the timestamp dumped as an ISO string. -/
def mkStatsDoc (newId now filename : String) (original_size compressed_size : Nat)
    (original_format : String) : CompressionStats :=
  { id := newId
    original_filename := filename
    original_size := original_size
    compressed_size := compressed_size
    original_format := original_format
    compression_ratio := compression_ratio original_size compressed_size
    timestamp := now }

/-- The body of the `try:` block of `compress_image` (lines 64–119), step by
step.  The imaging primitives `decode` (`Image.open`, line 70) and `encode`
(`image.save(..., format='WEBP', quality=95, method=6)`, line 85) and the
store write `insertOne` (line 103) are external collaborators passed as
fallible parameters; `newId` and `now` stand for `uuid.uuid4()` and
`datetime.now(timezone.utc).isoformat()`.  Any raised exception is an
`Except.error` carrying `str(e)`. -/
def compressCore (decode : List Nat → Except String PILImage)
    (encode : PILImage → Except String (List Nat))
    (insertOne : List CompressionStats → CompressionStats →
      Except String (List CompressionStats))
    (newId now : String) (file : UploadFile) (store : List CompressionStats) :
    Except String (Response × List CompressionStats) :=
  let contents := file.contents
  let original_size := contents.length
  match decode contents with
  | .error e => .error e
  | .ok image =>
    let original_format := orUnknown image.format
    let image := normalize image
    match encode image with
    | .error e => .error e
    | .ok output =>
      let compressed_size := output.length
      match file.filename with
      | none => .error validationErrorMsg
      | some filename =>
        let stats := mkStatsDoc newId now filename original_size compressed_size
          original_format
        match insertOne store stats with
        | .error e => .error e
        | .ok store2 =>
          .ok (Response.success output (attachmentFor filename) original_size
            compressed_size (compression_ratio original_size compressed_size)
            original_format, store2)

/-- `compress_image` (lines 59–123): run the pipeline; on any exception,
answer `HTTPException(status_code=400, detail=f"Error processing image: ...")`
and leave the store as it was. -/
def compress_image (decode : List Nat → Except String PILImage)
    (encode : PILImage → Except String (List Nat))
    (insertOne : List CompressionStats → CompressionStats →
      Except String (List CompressionStats))
    (newId now : String) (file : UploadFile) (store : List CompressionStats) :
    Response × List CompressionStats :=
  match compressCore decode encode insertOne newId now file store with
  | .ok r => r
  | .error e => (Response.clientError 400 ("Error processing image: " ++ e), store)

/-! ## Concrete instances used to exercise the theorems -/

/-- A 1×1 opaque RGB image, as a PNG decoder would produce it. -/
def imgRGB1 : PILImage :=
  { mode := Mode.RGB, width := 1, height := 1, pixels := [[1, 2, 3]],
    palette := [], format := some "PNG" }

/-- A 1×1 fully transparent RGBA image. -/
def imgRGBA0 : PILImage :=
  { mode := Mode.RGBA, width := 1, height := 1, pixels := [[10, 20, 30, 0]],
    palette := [], format := some "PNG" }

/-- A decoder that rejects the empty byte string (as `Image.open` does) and
decodes anything else to `imgRGB1`. -/
def decodeEx : List Nat → Except String PILImage :=
  fun b => if b = [] then Except.error "cannot identify image file" else Except.ok imgRGB1

/-- An encoder producing a fixed two-byte WebP payload. -/
def encodeEx : PILImage → Except String (List Nat) :=
  fun _ => Except.ok [9, 9]

/-- A four-byte upload named `photo.png`. -/
def fileEx : UploadFile :=
  { filename := some "photo.png", contents := [1, 2, 3, 4] }

/-- An empty upload. -/
def fileEmpty : UploadFile :=
  { filename := some "empty.txt", contents := [] }

/-- A valid upload that carries no filename. -/
def fileNoName : UploadFile :=
  { filename := none, contents := [1, 2, 3, 4] }

/-- A stored document with an older timestamp. -/
def docOld : CompressionStats :=
  { id := "id0", original_filename := "a.png", original_size := 10,
    compressed_size := 4, original_format := "PNG", compression_ratio := 60,
    timestamp := "2024-01-01T00:00:00+00:00" }

/-- A stored document with a newer timestamp. -/
def docNew : CompressionStats :=
  { id := "id1", original_filename := "b.png", original_size := 8,
    compressed_size := 2, original_format := "PNG", compression_ratio := 75,
    timestamp := "2025-06-01T12:00:00+00:00" }

/-! ## Helper lemmas -/

/-- The handler maps any exception raised inside the `try:` block to a 400
with the exception's message and leaves the store untouched. -/
theorem compress_error_eq (decode : List Nat → Except String PILImage)
    (encode : PILImage → Except String (List Nat))
    (insertOne : List CompressionStats → CompressionStats →
      Except String (List CompressionStats))
    (newId now : String) (file : UploadFile) (store : List CompressionStats)
    (e : String)
    (h : compressCore decode encode insertOne newId now file store = Except.error e) :
    compress_image decode encode insertOne newId now file store =
      (Response.clientError 400 ("Error processing image: " ++ e), store) := by
  unfold compress_image
  rw [h]

/-- On the all-steps-succeed path the handler answers the 200 streaming
response built on lines 106–119, with the store as the insert left it. -/
theorem compress_ok_eq (decode : List Nat → Except String PILImage)
    (encode : PILImage → Except String (List Nat))
    (insertOne : List CompressionStats → CompressionStats →
      Except String (List CompressionStats))
    (newId now : String) (file : UploadFile) (store : List CompressionStats)
    (img : PILImage) (out : List Nat) (fn : String) (store2 : List CompressionStats)
    (hd : decode file.contents = Except.ok img)
    (he : encode (normalize img) = Except.ok out)
    (hf : file.filename = some fn)
    (hi : insertOne store (mkStatsDoc newId now fn file.contents.length out.length
      (orUnknown img.format)) = Except.ok store2) :
    compress_image decode encode insertOne newId now file store =
      (Response.success out (attachmentFor fn) file.contents.length out.length
        (compression_ratio file.contents.length out.length) (orUnknown img.format),
       store2) := by
  simp only [compress_image, compressCore, hd, he, hf, hi]

/-! ## Claims -/

/-- C1: for every compress request whose bytes decode as an image, the
recorded ratio (the `compression_ratio` field of the single appended store
document) and the reported ratio (the `X-Compression-Ratio` response value)
are one and the same value `r`, and `r` equals
`round((1 - compressed_size / original_size) * 100, 2)` whenever
`original_size > 0`, while `original_size = 0` would give `r = 0` with no
division taken. -/
theorem c1_compression_ratio_formula (decode : List Nat → Except String PILImage)
    (encode : PILImage → Except String (List Nat)) (newId now : String)
    (file : UploadFile) (store : List CompressionStats) (img : PILImage)
    (out : List Nat) (fn : String)
    (hd : decode file.contents = Except.ok img)
    (he : encode (normalize img) = Except.ok out)
    (hf : file.filename = some fn) :
    ∃ r : ℚ,
      (0 < file.contents.length →
        r = round2 ((1 - (out.length : ℚ) / (file.contents.length : ℚ)) * 100)) ∧
      (file.contents.length = 0 → r = 0) ∧
      compress_image decode encode mongoInsert newId now file store =
        (Response.success out (attachmentFor fn) file.contents.length out.length r
          (orUnknown img.format),
         store ++ [{ id := newId, original_filename := fn,
                     original_size := file.contents.length,
                     compressed_size := out.length,
                     original_format := orUnknown img.format,
                     compression_ratio := r,
                     timestamp := now }]) := by
  refine ⟨compression_ratio file.contents.length out.length, fun h => ?_, fun h => ?_, ?_⟩
  · simp [compression_ratio, h]
  · simp [compression_ratio, h]
  · exact compress_ok_eq decode encode mongoInsert newId now file store img out fn _
      hd he hf rfl

theorem c1_witness :
    ∃ r : ℚ,
      (0 < fileEx.contents.length →
        r = round2 ((1 - (([9, 9] : List Nat).length : ℚ) /
          (fileEx.contents.length : ℚ)) * 100)) ∧
      (fileEx.contents.length = 0 → r = 0) ∧
      compress_image decodeEx encodeEx mongoInsert "id9" "2025-07-01T00:00:00+00:00"
          fileEx [] =
        (Response.success [9, 9] (attachmentFor "photo.png") fileEx.contents.length
          ([9, 9] : List Nat).length r (orUnknown imgRGB1.format),
         [] ++ [{ id := "id9", original_filename := "photo.png",
                  original_size := fileEx.contents.length,
                  compressed_size := ([9, 9] : List Nat).length,
                  original_format := orUnknown imgRGB1.format,
                  compression_ratio := r,
                  timestamp := "2025-07-01T00:00:00+00:00" }]) :=
  c1_compression_ratio_formula decodeEx encodeEx "id9" "2025-07-01T00:00:00+00:00"
    fileEx [] imgRGB1 [9, 9] "photo.png" rfl rfl rfl

/-- C2: whenever any step of the pipeline raises (`compressCore` returns an
error), the handler answers a 400 carrying `Error processing image: <reason>`
and the persisted collection is exactly the input collection — a record is
only inserted after transcoding succeeded. -/
theorem c2_failure_is_400_and_store_unchanged (decode : List Nat → Except String PILImage)
    (encode : PILImage → Except String (List Nat))
    (insertOne : List CompressionStats → CompressionStats →
      Except String (List CompressionStats))
    (newId now : String) (file : UploadFile) (store : List CompressionStats)
    (e : String)
    (h : compressCore decode encode insertOne newId now file store = Except.error e) :
    compress_image decode encode insertOne newId now file store =
      (Response.clientError 400 ("Error processing image: " ++ e), store) :=
  compress_error_eq decode encode insertOne newId now file store e h

theorem c2_witness :
    compress_image decodeEx encodeEx mongoInsert "id2" "2025-07-02T00:00:00+00:00"
        fileEmpty [docOld] =
      (Response.clientError 400 ("Error processing image: " ++ "cannot identify image file"),
       [docOld]) :=
  c2_failure_is_400_and_store_unchanged decodeEx encodeEx mongoInsert "id2"
    "2025-07-02T00:00:00+00:00" fileEmpty [docOld] "cannot identify image file" rfl

/-- C4: when the uploaded bytes do not decode as an image (in particular when
they are empty), the handler answers a 400 whose detail is
`Error processing image: <decode failure reason>`, the store is unchanged,
and no success response is produced. -/
theorem c4_undecodable_is_client_error (decode : List Nat → Except String PILImage)
    (encode : PILImage → Except String (List Nat))
    (insertOne : List CompressionStats → CompressionStats →
      Except String (List CompressionStats))
    (newId now : String) (file : UploadFile) (store : List CompressionStats)
    (reason : String)
    (hd : decode file.contents = Except.error reason) :
    compress_image decode encode insertOne newId now file store =
      (Response.clientError 400 ("Error processing image: " ++ reason), store) ∧
    ∀ body cd a b r fmt,
      (compress_image decode encode insertOne newId now file store).1 ≠
        Response.success body cd a b r fmt := by
  have h : compressCore decode encode insertOne newId now file store =
      Except.error reason := by
    simp only [compressCore, hd]
  refine ⟨compress_error_eq decode encode insertOne newId now file store reason h, ?_⟩
  intro body cd a b r fmt
  rw [compress_error_eq decode encode insertOne newId now file store reason h]
  simp

theorem c4_witness :
    (compress_image decodeEx encodeEx mongoInsert "id4" "2025-07-04T00:00:00+00:00"
        fileEmpty [] =
      (Response.clientError 400 ("Error processing image: " ++ "cannot identify image file"),
       [])) ∧
    ∀ body cd a b r fmt,
      (compress_image decodeEx encodeEx mongoInsert "id4" "2025-07-04T00:00:00+00:00"
        fileEmpty []).1 ≠ Response.success body cd a b r fmt :=
  c4_undecodable_is_client_error decodeEx encodeEx mongoInsert "id4"
    "2025-07-04T00:00:00+00:00" fileEmpty [] "cannot identify image file" rfl

/-- C8: every successful compress request answers the encoded WebP bytes as
body, a `Content-Disposition` naming an attachment `<stem of filename>.webp`,
and the four `X-` values: uploaded byte count, encoded byte count, computed
ratio, and the detected format label (`UNKNOWN` when the decoder reports
none). -/
theorem c8_success_response_shape (decode : List Nat → Except String PILImage)
    (encode : PILImage → Except String (List Nat))
    (insertOne : List CompressionStats → CompressionStats →
      Except String (List CompressionStats))
    (newId now : String) (file : UploadFile) (store : List CompressionStats)
    (img : PILImage) (out : List Nat) (fn : String) (store2 : List CompressionStats)
    (hd : decode file.contents = Except.ok img)
    (he : encode (normalize img) = Except.ok out)
    (hf : file.filename = some fn)
    (hi : insertOne store (mkStatsDoc newId now fn file.contents.length out.length
      (orUnknown img.format)) = Except.ok store2) :
    compress_image decode encode insertOne newId now file store =
      (Response.success out ("attachment; filename=\"" ++ stem fn ++ ".webp\"")
        file.contents.length out.length
        (compression_ratio file.contents.length out.length)
        (orUnknown img.format),
       store2) ∧
    orUnknown none = "UNKNOWN" :=
  ⟨compress_ok_eq decode encode insertOne newId now file store img out fn store2
    hd he hf hi, rfl⟩

theorem c8_witness :
    (compress_image decodeEx encodeEx mongoInsert "id8" "2025-07-08T00:00:00+00:00"
        fileEx [] =
      (Response.success [9, 9] ("attachment; filename=\"" ++ stem "photo.png" ++ ".webp\"")
        fileEx.contents.length ([9, 9] : List Nat).length
        (compression_ratio fileEx.contents.length ([9, 9] : List Nat).length)
        (orUnknown imgRGB1.format),
       [mkStatsDoc "id8" "2025-07-08T00:00:00+00:00" "photo.png" fileEx.contents.length
         ([9, 9] : List Nat).length (orUnknown imgRGB1.format)])) ∧
    orUnknown none = "UNKNOWN" :=
  c8_success_response_shape decodeEx encodeEx mongoInsert "id8"
    "2025-07-08T00:00:00+00:00" fileEx [] imgRGB1 [9, 9] "photo.png"
    [mkStatsDoc "id8" "2025-07-08T00:00:00+00:00" "photo.png" fileEx.contents.length
      ([9, 9] : List Nat).length (orUnknown imgRGB1.format)]
    rfl rfl rfl rfl

/-- C9: a decoder that rejects empty inputs (as `Image.open` does) makes
`original_size` strictly positive on every successful request, so the ratio's
0-branch is unreachable on the success path: the reported ratio is literally
the division-branch formula. -/
theorem c9_success_size_positive (decode : List Nat → Except String PILImage)
    (encode : PILImage → Except String (List Nat))
    (insertOne : List CompressionStats → CompressionStats →
      Except String (List CompressionStats))
    (newId now : String) (file : UploadFile) (store : List CompressionStats)
    (img : PILImage) (out : List Nat) (fn : String) (store2 : List CompressionStats)
    (hdec : ∀ b i, decode b = Except.ok i → b ≠ [])
    (hd : decode file.contents = Except.ok img)
    (he : encode (normalize img) = Except.ok out)
    (hf : file.filename = some fn)
    (hi : insertOne store (mkStatsDoc newId now fn file.contents.length out.length
      (orUnknown img.format)) = Except.ok store2) :
    0 < file.contents.length ∧
    compress_image decode encode insertOne newId now file store =
      (Response.success out (attachmentFor fn) file.contents.length out.length
        (round2 ((1 - (out.length : ℚ) / (file.contents.length : ℚ)) * 100))
        (orUnknown img.format),
       store2) := by
  have hpos : 0 < file.contents.length :=
    List.length_pos.mpr (hdec file.contents img hd)
  have hr : compression_ratio file.contents.length out.length =
      round2 ((1 - (out.length : ℚ) / (file.contents.length : ℚ)) * 100) := by
    simp [compression_ratio, hpos]
  refine ⟨hpos, ?_⟩
  rw [← hr]
  exact compress_ok_eq decode encode insertOne newId now file store img out fn store2
    hd he hf hi

theorem c9_witness :
    0 < fileEx.contents.length ∧
    compress_image decodeEx encodeEx mongoInsert "id9b" "2025-07-09T00:00:00+00:00"
        fileEx [] =
      (Response.success [9, 9] (attachmentFor "photo.png") fileEx.contents.length
        ([9, 9] : List Nat).length
        (round2 ((1 - (([9, 9] : List Nat).length : ℚ) /
          (fileEx.contents.length : ℚ)) * 100))
        (orUnknown imgRGB1.format),
       [mkStatsDoc "id9b" "2025-07-09T00:00:00+00:00" "photo.png" fileEx.contents.length
         ([9, 9] : List Nat).length (orUnknown imgRGB1.format)]) :=
  c9_success_size_positive decodeEx encodeEx mongoInsert "id9b"
    "2025-07-09T00:00:00+00:00" fileEx [] imgRGB1 [9, 9] "photo.png"
    [mkStatsDoc "id9b" "2025-07-09T00:00:00+00:00" "photo.png" fileEx.contents.length
      ([9, 9] : List Nat).length (orUnknown imgRGB1.format)]
    (fun b i hok hb => by rw [hb] at hok; simp [decodeEx] at hok)
    rfl rfl rfl rfl

/-- C10: an upload without a filename fails with a 400 — the pydantic
construction of the stats record needs a string filename — even when the
bytes decode and transcode fine; the store is unchanged and no success
response exists. -/
theorem c10_missing_filename_fails (decode : List Nat → Except String PILImage)
    (encode : PILImage → Except String (List Nat))
    (insertOne : List CompressionStats → CompressionStats →
      Except String (List CompressionStats))
    (newId now : String) (file : UploadFile) (store : List CompressionStats)
    (img : PILImage) (out : List Nat)
    (hd : decode file.contents = Except.ok img)
    (he : encode (normalize img) = Except.ok out)
    (hf : file.filename = none) :
    compress_image decode encode insertOne newId now file store =
      (Response.clientError 400 ("Error processing image: " ++ validationErrorMsg),
       store) ∧
    ∀ body cd a b r fmt,
      (compress_image decode encode insertOne newId now file store).1 ≠
        Response.success body cd a b r fmt := by
  have h : compressCore decode encode insertOne newId now file store =
      Except.error validationErrorMsg := by
    simp only [compressCore, hd, he, hf]
  refine ⟨compress_error_eq decode encode insertOne newId now file store _ h, ?_⟩
  intro body cd a b r fmt
  rw [compress_error_eq decode encode insertOne newId now file store _ h]
  simp

theorem c10_witness :
    (compress_image decodeEx encodeEx mongoInsert "id10" "2025-07-10T00:00:00+00:00"
        fileNoName [docOld] =
      (Response.clientError 400 ("Error processing image: " ++ validationErrorMsg),
       [docOld])) ∧
    ∀ body cd a b r fmt,
      (compress_image decodeEx encodeEx mongoInsert "id10" "2025-07-10T00:00:00+00:00"
        fileNoName [docOld]).1 ≠ Response.success body cd a b r fmt :=
  c10_missing_filename_fails decodeEx encodeEx mongoInsert "id10"
    "2025-07-10T00:00:00+00:00" fileNoName [docOld] imgRGB1 [9, 9] rfl rfl rfl

/-- C5: the list operation returns stored documents sorted by their ISO-8601
timestamp strings, most recent (largest string) first; what it returns is
drawn from the store without alteration (a sub-permutation, and the whole
store, reordered, whenever the store holds at most 100 documents). -/
theorem c5_list_newest_first (store : List CompressionStats) :
    List.Sorted tsGE (get_compression_stats store) ∧
    List.Subperm (get_compression_stats store) store ∧
    (store.length ≤ 100 → List.Perm (get_compression_stats store) store) := by
  refine ⟨?_, ?_, ?_⟩
  · exact List.Pairwise.sublist (List.take_sublist 100 _)
      (List.sorted_insertionSort tsGE store)
  · exact ((List.take_sublist 100 _).subperm).trans
      (List.perm_insertionSort tsGE store).subperm
  · intro h
    unfold get_compression_stats
    rw [List.take_of_length_le (by rw [List.length_insertionSort]; exact h)]
    exact List.perm_insertionSort tsGE store

theorem c5_witness : List.Perm (get_compression_stats [docOld, docNew]) [docOld, docNew] :=
  (c5_list_newest_first [docOld, docNew]).2.2 (by simp)

/-- C6: the list operation never returns more than 100 documents, whatever
the store holds; with at least 100 stored documents it returns exactly 100. -/
theorem c6_list_capped_at_100 (store : List CompressionStats) :
    (get_compression_stats store).length ≤ 100 ∧
    (100 ≤ store.length → (get_compression_stats store).length = 100) := by
  constructor
  · simp only [get_compression_stats, List.length_take]
    exact min_le_left 100 _
  · intro h
    simp only [get_compression_stats, List.length_take, List.length_insertionSort]
    omega

theorem c6_witness :
    (get_compression_stats (List.replicate 101 docOld)).length = 100 :=
  (c6_list_capped_at_100 (List.replicate 101 docOld)).2 (by simp)

/-- C7: after a successful record whose timestamp is strictly the most recent
in the store (the insert appends the document), an immediate list returns
that very document — all fields as recorded — as its first element. -/
theorem c7_fresh_record_listed_first (store : List CompressionStats)
    (d : CompressionStats)
    (hmax : ∀ x ∈ store, x.timestamp < d.timestamp) :
    (get_compression_stats (store ++ [d])).head? = some d := by
  unfold get_compression_stats
  have hperm : List.Perm (List.insertionSort tsGE (store ++ [d])) (store ++ [d]) :=
    List.perm_insertionSort tsGE _
  have hsorted : List.Sorted tsGE (List.insertionSort tsGE (store ++ [d])) :=
    List.sorted_insertionSort tsGE _
  have hdmem : d ∈ List.insertionSort tsGE (store ++ [d]) :=
    hperm.mem_iff.mpr (by simp)
  cases hl : List.insertionSort tsGE (store ++ [d]) with
  | nil => rw [hl] at hdmem; simp at hdmem
  | cons hd tl =>
    have hhl : hd ∈ store ++ [d] := hperm.mem_iff.mp (by rw [hl]; simp)
    have hhd : hd = d := by
      rcases List.mem_append.mp hhl with hh | hh
      · rw [hl] at hdmem hsorted
        rcases List.mem_cons.mp hdmem with heq | hdt
        · exact absurd (heq ▸ hmax hd hh) (lt_irrefl _)
        · have hle : d.timestamp ≤ hd.timestamp :=
            (List.sorted_cons.mp hsorted).1 d hdt
          exact absurd (lt_of_lt_of_le (hmax hd hh) hle) (lt_irrefl _)
      · simpa using hh
    subst hhd
    rw [(by norm_num : (100 : Nat) = 99 + 1), List.take_succ_cons]
    rfl

theorem c7_witness : (get_compression_stats ([docOld] ++ [docNew])).head? = some docNew :=
  c7_fresh_record_listed_first [docOld] docNew (by
    intro x hx
    rw [List.mem_singleton.mp hx, String.lt_iff_toList_lt]
    decide)

/-! ## Normalizer lemmas -/

/-- Blending with zero alpha keeps the background channel. -/
theorem blendChannel_zero (bg s : Nat) : blendChannel 0 bg s = bg := by
  unfold blendChannel
  simp only [Nat.sub_zero, Nat.mul_zero, Nat.add_zero]
  rw [Nat.mul_comm, Nat.mul_add_div (by norm_num)]
  norm_num

/-- Blending a white pixel with a zero-alpha source pixel of at least three
channels is white. -/
theorem zipWith_white (s : List Nat) (h : 3 ≤ s.length) :
    List.zipWith (blendChannel 0) [255, 255, 255] s = [255, 255, 255] := by
  rcases s with _ | ⟨a, s⟩
  · simp at h
  rcases s with _ | ⟨b, s⟩
  · simp at h
  rcases s with _ | ⟨c, s⟩
  · simp at h
  simp [blendChannel_zero]

/-- Element access into the result of a masked paste. -/
theorem pastePixels_getElem? (bgs : List (List Nat)) :
    ∀ (ss : List (List Nat)) (ms : List Nat) (i : Nat),
      i < bgs.length → i < ss.length → i < ms.length →
      (pastePixels bgs ss ms)[i]? =
        some (List.zipWith (blendChannel (ms.getD i 0)) (bgs.getD i []) (ss.getD i [])) := by
  induction bgs with
  | nil => intro ss ms i h1 _ _; simp at h1
  | cons bg bgs ih =>
    intro ss ms i h1 h2 h3
    cases ss with
    | nil => simp at h2
    | cons s ss =>
      cases ms with
      | nil => simp at h3
      | cons a ms =>
        cases i with
        | zero => simp [pastePixels, List.getD]
        | succ i =>
          simp only [pastePixels, List.getElem?_cons_succ, List.getD_cons_succ]
          exact ih ss ms i (by simpa using h1) (by simpa using h2) (by simpa using h3)

/-- On `RGBA` and `LA` inputs, normalization is the masked paste onto the
white canvas. -/
theorem normalize_rgba_la (img : PILImage)
    (hm : img.mode = Mode.RGBA ∨ img.mode = Mode.LA) :
    normalize img =
      pasteImage (whiteBackground img.width img.height) img
        (some (alphaChannel img)) := by
  rcases hm with h | h <;> simp [normalize, h]

/-- A converted `RGBA` or `LA` pixel of the right channel count has the three
RGB channels. -/
theorem pixelToRGB_length_three (m : Mode) (pal : List (List Nat)) (px : List Nat)
    (hm : m = Mode.RGBA ∨ m = Mode.LA) (hlen : px.length = m.channels) :
    3 ≤ (pixelToRGB m pal px).length := by
  rcases hm with rfl | rfl
  · have h4 : px.length = 4 := by simpa [Mode.channels] using hlen
    rcases px with _ | ⟨a, px⟩
    · simp at h4
    rcases px with _ | ⟨b, px⟩
    · simp at h4
    rcases px with _ | ⟨c, px⟩
    · simp at h4
    simp [pixelToRGB]
  · rcases px with _ | ⟨a, px⟩
    · simp [Mode.channels] at hlen
    · simp [pixelToRGB]

/-- A fully transparent pixel of an `RGBA` or `LA` image normalizes to pure
white. -/
theorem normalize_transparent_white (img : PILImage)
    (hm : img.mode = Mode.RGBA ∨ img.mode = Mode.LA) (hwf : WF img)
    (i : Nat) (h : i < img.pixels.length)
    (ha : alphaOf (img.pixels.get ⟨i, h⟩) = 0) :
    (normalize img).pixels[i]? = some [255, 255, 255] := by
  rw [normalize_rgba_la img hm]
  have hwh : i < (whiteBackground img.width img.height).pixels.length := by
    simpa [whiteBackground] using hwf.1 ▸ h
  have hsrc : i < (img.pixels.map (pixelToRGB img.mode img.palette)).length := by
    simpa using h
  have hmask : i < (alphaChannel img).length := by
    simpa [alphaChannel] using h
  simp only [pasteImage]
  rw [pastePixels_getElem? _ _ _ i hwh hsrc hmask]
  have hbg : (whiteBackground img.width img.height).pixels.getD i [] = [255, 255, 255] := by
    simp only [whiteBackground]
    rw [List.getD_eq_getElem?_getD, List.getElem?_replicate]
    simp [hwf.1 ▸ h]
  have hms : (alphaChannel img).getD i 0 = 0 := by
    rw [List.getD_eq_getElem?_getD]
    simp only [alphaChannel, List.getElem?_map, List.getElem?_eq_getElem h]
    simpa using ha
  have hsv : (img.pixels.map (pixelToRGB img.mode img.palette)).getD i [] =
      pixelToRGB img.mode img.palette (img.pixels.get ⟨i, h⟩) := by
    rw [List.getD_eq_getElem?_getD]
    simp [List.getElem?_map, List.getElem?_eq_getElem h]
  rw [hbg, hms, hsv]
  have hmem : img.pixels.get ⟨i, h⟩ ∈ img.pixels := List.get_mem _ _ _
  have hlen := (hwf.2 _ hmem).1
  rw [zipWith_white _ (pixelToRGB_length_three img.mode img.palette _ hm hlen)]

/-- C3: the normalizer always yields alpha-free full-color (`RGB`) data of
the input's dimensions; plain `RGB` images pass through unchanged; alpha-free
non-`RGB` modes are converted to `RGB` without compositing; `RGBA`/`LA`
images are composited onto an opaque white canvas using their alpha channel
as mask, palette images after first expanding to `RGBA` through the palette;
fully transparent pixels come out white. -/
theorem c3_normalizer (img : PILImage) :
    (normalize img).mode = Mode.RGB ∧
    (normalize img).width = img.width ∧
    (normalize img).height = img.height ∧
    (img.mode = Mode.RGB → normalize img = img) ∧
    ((img.mode = Mode.L ∨ img.mode = Mode.CMYK) → normalize img = img.convertRGB) ∧
    (img.mode = Mode.P →
      normalize img = pasteImage (whiteBackground img.width img.height)
        img.convertRGBA (some (alphaChannel img.convertRGBA))) ∧
    ((img.mode = Mode.RGBA ∨ img.mode = Mode.LA) →
      normalize img = pasteImage (whiteBackground img.width img.height) img
        (some (alphaChannel img))) ∧
    ((img.mode = Mode.RGBA ∨ img.mode = Mode.LA) → WF img →
      ∀ i, ∀ h : i < img.pixels.length, alphaOf (img.pixels.get ⟨i, h⟩) = 0 →
        (normalize img).pixels[i]? = some [255, 255, 255]) := by
  refine ⟨?_, ?_, ?_, ?_, ?_, ?_, normalize_rgba_la img, normalize_transparent_white img⟩
  · cases h : img.mode <;>
      simp [normalize, h, pasteImage, whiteBackground, PILImage.convertRGB,
        PILImage.convertRGBA]
  · cases h : img.mode <;>
      simp [normalize, h, pasteImage, whiteBackground, PILImage.convertRGB,
        PILImage.convertRGBA]
  · cases h : img.mode <;>
      simp [normalize, h, pasteImage, whiteBackground, PILImage.convertRGB,
        PILImage.convertRGBA]
  · intro h; simp [normalize, h]
  · rintro (h | h) <;> simp [normalize, h]
  · intro h; simp [normalize, h, PILImage.convertRGBA]

theorem c3_witness : (normalize imgRGBA0).pixels[0]? = some [255, 255, 255] :=
  (c3_normalizer imgRGBA0).2.2.2.2.2.2.2 (Or.inl rfl) (by decide) 0 (by decide) (by decide)

end ImageService
